import Mathlib

/-!
Verification of the curio-shorts client (src/index.tsx).

This file gives a shallow embedding of the parts of the program that the
stated properties are about: the track-selection keyword match, the
narrator-instruction builder, the persistence adapter, the generation flow
(busy flag, text request, parallel image requests, save/rollback), the feed
and history-gallery state, and the sequential narration loop.  JavaScript
strings are modelled as Lean `String`, working over the underlying character
list; the asynchronous environment (AI responses, image request outcomes,
IndexedDB availability) is passed in explicitly.  Theorems about each
property follow the definitions.
-/

/-- Model of the JavaScript whitespace class used by `trim` (restricted to the
whitespace characters that occur in this application's inputs). -/
def isWsChar (c : Char) : Bool :=
  c = ' ' || c = '\t' || c = '\n' || c = '\r'

/-- Model of `String.prototype.trim`: drop leading and trailing whitespace. -/
def trimStr (s : String) : String :=
  String.mk (((s.data.dropWhile isWsChar).reverse.dropWhile isWsChar).reverse)

/-- Model of `String.prototype.toLowerCase` (ASCII range, which covers all
keywords and curated narrator names in the source). -/
def toLowerStr (s : String) : String :=
  String.mk (s.data.map Char.toLower)

/-- Decides whether `sub` occurs contiguously inside `l`; model of
`String.prototype.includes` at the character-list level. -/
def hasSubseq (sub : List Char) : List Char → Bool
  | [] => sub.isEmpty
  | c :: tl => List.isPrefixOf sub (c :: tl) || hasSubseq sub tl

/-- Model of `s.includes(sub)` for JavaScript strings. -/
def strContainsSub (s sub : String) : Bool :=
  hasSubseq sub.data s.data

/-- Numeric value of a decimal digit character, if it is one. -/
def digitVal (c : Char) : Option Nat :=
  if '0' ≤ c ∧ c ≤ '9' then some (c.toNat - '0'.toNat) else none

/-- Parse a non-empty all-digit character list as a natural number; `none`
otherwise.  Models `Number(s)` on the timestamp-string ids produced by
`Date.now().toString()` (NaN and non-digit inputs map to `none`). -/
def natOfDigits : List Char → Option Nat
  | [] => none
  | l => l.foldl (fun acc c =>
      match acc, digitVal c with
      | some n, some d => some (n * 10 + d)
      | _, _ => none) (some 0)

/-- `Number(id)` as used by the history sort comparator, defaulted to `0` on
non-numeric input so that it is total. -/
def idNum (s : String) : Nat :=
  (natOfDigits s.data).getD 0

-- --- Data model (the interfaces of src/index.tsx) ---

/-- One line of the song as rendered: lyrics plus its generated image
(`SlideData` in the source; `imageSrc` holds the data-URI image). -/
structure SlideData where
  lyrics : String
  imageSrc : String
deriving Repr, DecidableEq

/-- One line of the song as returned by the text model (`SongSlide`). -/
structure SongSlide where
  lyrics : String
  image_prompt : String
deriving Repr, DecidableEq

/-- The parsed structured-output response of the text model
(`SongStructure`). -/
structure SongStructure where
  slides : List SongSlide
  music_style : String
deriving Repr, DecidableEq

/-- A generated Short (`TikTok` in the source).  `element` is the transient
rendering handle (the DOM container); we model it by the container's
correlation key, `none` when not attached to the feed. -/
structure TikTok where
  id : String
  slides : List SlideData
  character : String
  prompt : String
  instrumentalId : Option String
  voiceName : Option String
  element : Option String
deriving Repr, DecidableEq

/-- Numeric sort key of a Short (`Number(t.id)`). -/
def tikTokKey (t : TikTok) : Nat := idNum t.id

-- --- Track selection (selectBeatForStyle) ---

/-- Transcription of `selectBeatForStyle` from src/index.tsx: lowercase the
style, test the upbeat keyword group, then the ballad group, then the epic
group, defaulting to the upbeat track. -/
def selectBeatForStyle (style : String) : String :=
  let lowerStyle := toLowerStr style
  if strContainsSub lowerStyle "upbeat" ||
     strContainsSub lowerStyle "pop" ||
     strContainsSub lowerStyle "happy" ||
     strContainsSub lowerStyle "rock" then
    "beat-upbeat"
  else if strContainsSub lowerStyle "ballad" ||
          strContainsSub lowerStyle "gentle" ||
          strContainsSub lowerStyle "slow" ||
          strContainsSub lowerStyle "acoustic" then
    "beat-ballad"
  else if strContainsSub lowerStyle "epic" ||
          strContainsSub lowerStyle "cinematic" ||
          strContainsSub lowerStyle "score" then
    "beat-epic"
  else
    "beat-upbeat"

/-- The spec's keyword groups, in the spec's stated priority order. -/
def upbeatKeywords : List String := ["upbeat", "pop", "happy", "rock"]

/-- Ballad keyword group from the spec. -/
def balladKeywords : List String := ["ballad", "gentle", "slow", "acoustic"]

/-- Epic keyword group from the spec. -/
def epicKeywords : List String := ["epic", "cinematic", "score"]

/-- Track selection as worded by the spec: case-insensitive keyword match
against ordered keyword groups, first matching group wins, unmatched styles
default to track A (`beat-upbeat`). -/
def specSelectBeatForStyle (style : String) : String :=
  let ls := toLowerStr style
  if upbeatKeywords.any (fun k => strContainsSub ls k) then "beat-upbeat"
  else if balladKeywords.any (fun k => strContainsSub ls k) then "beat-ballad"
  else if epicKeywords.any (fun k => strContainsSub ls k) then "beat-epic"
  else "beat-upbeat"

-- --- Narrator instructions (getInstructionsForSong) ---

/-- Model of the Unicode `Emoji` character property tested by the source's
regular expression (a single code point with `\p{Emoji}`): the standard emoji
blocks plus the ASCII characters that carry the property (`#`, `*`, digits,
the copyright and registered signs, and the miscellaneous-symbol ranges). -/
def isEmojiChar (c : Char) : Bool :=
  let n := c.toNat
  (n = 0x23) || (n = 0x2A) || (0x30 ≤ n && n ≤ 0x39) ||
  (n = 0xA9) || (n = 0xAE) ||
  (n = 0x203C) || (n = 0x2049) || (n = 0x2122) || (n = 0x2139) ||
  (0x2190 ≤ n && n ≤ 0x21FF) || (0x2300 ≤ n && n ≤ 0x23FF) ||
  (n = 0x24C2) || (0x25A0 ≤ n && n ≤ 0x27BF) ||
  (0x2900 ≤ n && n ≤ 0x297F) || (0x2B00 ≤ n && n ≤ 0x2BFF) ||
  (n = 0x3030) || (n = 0x303D) || (n = 0x3297) || (n = 0x3299) ||
  (0x1F000 ≤ n && n ≤ 0x1FAFF)

/-- Model of `character.replace(emojiRegex, '')` for the anchored pattern that
matches one leading emoji code point followed by a run of whitespace: if the
first character has the emoji property, drop it together with the whitespace
run that follows; otherwise the string is unchanged. -/
def stripLeadingEmoji (s : String) : String :=
  match s.data with
  | [] => s
  | c :: rest =>
      if isEmojiChar c then String.mk (rest.dropWhile isWsChar) else s

/-- Model of `logicName.charAt(0).toUpperCase() + logicName.slice(1)`: the
first character uppercased, the rest unchanged (empty input stays empty). -/
def charAtUpperConcat (s : String) : String :=
  match s.data with
  | [] => ""
  | c :: rest => String.mk (c.toUpper :: rest)

/-- The `baseInstructions` template literal of `getInstructionsForSong`,
with its leading newline and four-space line indentation. -/
def baseInstructions : String :=
  "\n    You are a creative songwriter and visual artist.\n    Your task is to create a short, catchy, and simple song that explains the user\x27s query.\n    The song must be from the perspective of the specified character.\n    Generate a response in JSON format.\n    The JSON object must contain two keys:\n    1. \"slides\": An array of slide objects, where each slide contains a short line of \"lyrics\" and a corresponding descriptive \"image_prompt\" for an illustration to match that line.\n    2. \"music_style\": A short string describing the musical style of the song (e.g., \"upbeat pop\", \"gentle acoustic ballad\", \"epic cinematic score\").\n    Do NOT include any text, words, or letters in the image prompt itself.\n    The song should have between 6 and 8 slides.\n    No commentary, just the JSON object."

/-- Transcription of `getInstructionsForSong`: strip a leading emoji, trim,
switch on the lowercased name over the curated narrator table, and otherwise
fall through to the generic instruction built from the name with its first
character uppercased. -/
def getInstructionsForSong (character : String) : String :=
  let logicName := trimStr (stripLeadingEmoji character)
  let characterNameForPrompt := charAtUpperConcat logicName
  let characterSpecifics :=
    if toLowerStr logicName = "spider-man" then
      "Use concepts like web-slinging, spider-sense, and great responsibility in the lyrics."
    else if toLowerStr logicName = "barbie" then
      "Use themes of fashion, friendship, and her many careers in the lyrics."
    else if toLowerStr logicName = "simba" then
      "Use themes of the circle of life, the pride lands, and his jungle friends in the lyrics."
    else
      "Incorporate " ++ characterNameForPrompt ++ "\x27s unique personality, skills, and famous concepts into the lyrics."
  baseInstructions ++ " " ++ characterSpecifics

-- --- Persistence adapter (saveTikTokToDB / loadHistoryFromDB) ---

/-- The destructuring `const {element, ...savableTikTok} = tiktok`: the Short
with the transient rendering handle removed. -/
def savableTikTok (t : TikTok) : TikTok :=
  {t with element := none}

/-- `store.put(record)` on the object store keyed by `id`: upsert — replace
the record with the same key if present, otherwise add it. -/
def putStore (store : List TikTok) (t : TikTok) : List TikTok :=
  if store.any (fun u => u.id = t.id) then
    store.map (fun u => if u.id = t.id then t else u)
  else
    store ++ [t]

/-- Transcription of `saveTikTokToDB`: reject when the database handle is not
initialized, reject when the backend write fails, otherwise put the Short
minus its `element` field.  The store contents are threaded explicitly;
`backendOk` is the environment's verdict on the IndexedDB write request. -/
def saveTikTokToDB (dbInit backendOk : Bool) (store : List TikTok)
    (t : TikTok) : Except String (List TikTok) :=
  if dbInit = false then
    Except.error "Database is not initialized."
  else if backendOk = false then
    Except.error "Failed to save TikTok to DB."
  else
    Except.ok (putStore store (savableTikTok t))

-- --- Application state and observable effects ---

/-- The module-level mutable state touched by the flows under study:
the generation busy flag, the in-memory newest-first list `savedTikToks`,
the persisted store contents, the vertical feed (container keys, head =
top of feed) and the history gallery (thumbnail keys in display order). -/
structure AppState where
  isGenerating : Bool
  savedTikToks : List TikTok
  store : List TikTok
  feed : List String
  gallery : List String
deriving Repr, DecidableEq

/-- The empty startup state. -/
def initialState : AppState :=
  { isGenerating := false, savedTikToks := [], store := [], feed := [],
    gallery := [] }

/-- Observable effects of a generation attempt, in program order: stopping
the current playback session, the structured-output text request, starting a
background track, one image request per prompt, and user-facing error
popups. -/
inductive Effect where
  | stopSlideshow : Effect
  | textRequest : Effect
  | playBackground : String → Effect
  | imageRequest : String → Effect
  | errorPopup : String → Effect
deriving Repr, DecidableEq

/-- `renderHistoryGallery`: the gallery is rebuilt from the complete
in-memory list, one thumbnail per Short, in list order. -/
def renderHistoryGallery (mem : List TikTok) : List String :=
  mem.map (fun t => t.id)

/-- `addTikTokToFeed`: build the container, prepend it to the feed, and set
the Short's transient `element` handle to the container (correlated by id). -/
def addTikTokToFeed (t : TikTok) (feed : List String) :
    TikTok × List String :=
  ({t with element := some t.id}, t.id :: feed)

/-- Transcription of `saveAndRenderNewTikTok`: speculatively unshift the new
Short onto the in-memory newest-first list, attempt the persistence write,
and on success render it into the feed and rebuild the gallery; on failure
shift the speculative head back off the list and notify the user. -/
def saveAndRenderNewTikTok (dbInit backendOk : Bool) (t : TikTok)
    (s : AppState) : AppState × List Effect :=
  let mem1 := t :: s.savedTikToks
  match saveTikTokToDB dbInit backendOk s.store t with
  | Except.ok store1 =>
      let r := addTikTokToFeed t s.feed
      let mem2 := r.1 :: s.savedTikToks
      ({s with savedTikToks := mem2, store := store1, feed := r.2,
               gallery := renderHistoryGallery mem2}, [])
  | Except.error _ =>
      ({s with savedTikToks := mem1.tail},
       [Effect.errorPopup "Failed to save your new Short. Storage might be full or corrupted."])

/-- The history sort of `loadHistoryFromDB`:
`loadedTikToks.sort((a, b) => Number(b.id) - Number(a.id))`, newest first. -/
def sortNewestFirst (l : List TikTok) : List TikTok :=
  l.mergeSort (fun a b => decide (tikTokKey b ≤ tikTokKey a))

/-- Transcription of `loadHistoryFromDB`: read all persisted Shorts, sort
them newest first into the in-memory list, and when the result is non-empty
add each to the feed (oldest first, each prepended) and rebuild the gallery.
An uninitialized database or a failing read leaves the state unchanged. -/
def loadHistoryFromDB (dbInit backendOk : Bool) (s : AppState) : AppState :=
  if dbInit = false then s
  else if backendOk = false then s
  else
    let loaded := sortNewestFirst s.store
    if loaded.length > 0 then
      let withFeed := loaded.map (fun t => {t with element := some t.id})
      {s with savedTikToks := withFeed,
              feed := withFeed.map (fun t => t.id) ++ s.feed,
              gallery := renderHistoryGallery withFeed}
    else
      {s with savedTikToks := loaded}

-- --- The generation flow (generate) ---

/-- The asynchronous environment of one `generate` invocation: the form
values read at entry, whether the Gemini client is initialized, the parsed
structured-output response (`none` when the response is absent or is not
parseable as the expected JSON structure), the outcome of the image request
for each prompt (`none` = that promise rejects), the fresh `Date.now()`
identifier, and the persistence-layer verdicts. -/
structure GenEnv where
  userInputValue : String
  voiceChoice : String
  characterSelectorValue : String
  customCharacterValue : String
  aiInitialized : Bool
  textResponse : Option SongStructure
  imageOutcome : String → Option String
  nowId : String
  dbInit : Bool
  backendOk : Bool

/-- `Promise.all` over the per-prompt image requests: all results when every
request fulfills, `none` as soon as any one rejects. -/
def promiseAll (outcome : String → Option String) :
    List String → Option (List String)
  | [] => some []
  | p :: rest =>
      match outcome p, promiseAll outcome rest with
      | some img, some imgs => some (img :: imgs)
      | _, _ => none

/-- Transcription of `generate`, as a transition on `AppState` paired with
the list of observable effects in program order.  The busy-flag guard, the
client guard, the narrator guard, the structured-output parse and zero-slide
check, track selection, the parallel image step with its abort-on-failure
handler, and the save step (with the `finally` block clearing the busy flag
on every completed path) are each transcribed from src/index.tsx.  The
message of the generic catch popup is the stringified thrown error; for the
explicit song-structure throw we use its literal text. -/
def generate (env : GenEnv) (s : AppState) : AppState × List Effect :=
  let message := trimStr env.userInputValue
  let voiceChoice := env.voiceChoice
  if message = "" ∨ s.isGenerating = true then (s, [])
  else if env.aiInitialized = false then
    (s, [Effect.errorPopup "The Gemini client is not initialized. Please add your Gemini API key using the key icon in the header."])
  else
    let customCharacter := trimStr env.customCharacterValue
    let finalCharacter :=
      if env.characterSelectorValue = "custom" then customCharacter
      else env.characterSelectorValue
    if finalCharacter = "" then
      ({s with isGenerating := false},
       [Effect.stopSlideshow, Effect.errorPopup "Please enter or select a narrator."])
    else
      match env.textResponse with
      | none =>
          ({s with isGenerating := false},
           [Effect.stopSlideshow, Effect.textRequest,
            Effect.errorPopup "Something went wrong: Error: Could not generate song structure from model."])
      | some songData =>
          if songData.slides.length = 0 then
            ({s with isGenerating := false},
             [Effect.stopSlideshow, Effect.textRequest,
              Effect.errorPopup "Something went wrong: Error: Could not generate song structure from model."])
          else
            let musicStyle :=
              if songData.music_style = "" then "a catchy song"
              else songData.music_style
            let instrumentalId := selectBeatForStyle musicStyle
            let imagePrompts := songData.slides.map (fun sl => sl.image_prompt)
            let effs := [Effect.stopSlideshow, Effect.textRequest,
                         Effect.playBackground instrumentalId] ++
                        imagePrompts.map Effect.imageRequest
            match promiseAll env.imageOutcome imagePrompts with
            | none =>
                ({s with isGenerating := false},
                 effs ++ [Effect.errorPopup "Failed to generate images. Please try again."])
            | some images =>
                let newTikTok : TikTok :=
                  { id := env.nowId,
                    slides := List.zipWith
                      (fun part img => {lyrics := part.lyrics, imageSrc := img})
                      songData.slides images,
                    character := finalCharacter,
                    prompt := message,
                    instrumentalId := some instrumentalId,
                    voiceName := some voiceChoice,
                    element := none }
                if newTikTok.slides.length > 0 then
                  let r := saveAndRenderNewTikTok env.dbInit env.backendOk
                             newTikTok s
                  ({r.1 with isGenerating := false}, effs ++ r.2)
                else
                  ({s with isGenerating := false},
                   effs ++ [Effect.errorPopup "Something went wrong: Error: No content was generated. Please try again."])

-- --- Sequential narration playback (startSlideshow) ---

/-- The `speakAndAdvance` loop of `startSlideshow`, abstracted to the list of
utterances actually handed to the narration engine from slide index `i`
onward: a slide whose lyrics trim to the empty string advances immediately
without speaking; a non-empty slide is spoken and the loop advances on its
completion callback. -/
def speakAndAdvance (slides : List SlideData) (i : Nat) : List String :=
  if h : i < slides.length then
    let lyrics := (slides.get ⟨i, h⟩).lyrics
    if trimStr lyrics = "" then speakAndAdvance slides (i + 1)
    else lyrics :: speakAndAdvance slides (i + 1)
  else []
termination_by slides.length - i

-- --- Load/save operation sequences (history invariant machinery) ---

/-- One operation on the history state: a `loadHistoryFromDB` round-trip or
a `saveAndRenderNewTikTok` for a freshly generated Short, each with the
persistence-layer verdicts of that moment. -/
inductive Op where
  | load : Bool → Bool → Op
  | save : Bool → Bool → TikTok → Op
deriving Repr

/-- Apply one operation to the application state. -/
def applyOp (s : AppState) : Op → AppState
  | Op.load d b => loadHistoryFromDB d b s
  | Op.save d b t => (saveAndRenderNewTikTok d b t s).1

/-- Run a sequence of operations left to right. -/
def runOps : AppState → List Op → AppState
  | s, [] => s
  | s, op :: rest => runOps (applyOp s op) rest

/-- Every save in the sequence carries a fresh identifier whose numeric value
exceeds that of every Short persisted at that point — the guarantee provided
by `Date.now().toString()` between distinct generations. -/
def freshSaves : AppState → List Op → Bool
  | _, [] => true
  | s, op :: rest =>
      (match op with
       | Op.save _ _ t => s.store.all (fun u => decide (tikTokKey u < tikTokKey t))
       | Op.load _ _ => true) && freshSaves (applyOp s op) rest

/-- The history invariant: the in-memory list and the persisted set agree up
to permutation of numeric keys, the in-memory list is strictly descending in
numeric id, and the gallery is exactly the in-memory list in order. -/
def HistoryInv (s : AppState) : Prop :=
  (s.savedTikToks.map tikTokKey).Perm (s.store.map tikTokKey) ∧
  (s.savedTikToks.map tikTokKey).Pairwise (fun a b => b < a) ∧
  s.gallery = s.savedTikToks.map (fun t => t.id)

/-- Projection selecting the image-generation requests from an effect
trace. -/
def imagePromptOfEffect : Effect → Option String
  | Effect.imageRequest p => some p
  | _ => none

/-- A concrete two-slide song structure used to exercise the generation
flow. -/
def songC1 : SongStructure :=
  { slides := [{lyrics := "la", image_prompt := "a cat"},
               {lyrics := "lb", image_prompt := "a dog"}],
    music_style := "upbeat pop" }

/-- A concrete generation environment in which the second image request
rejects. -/
def envC1 : GenEnv :=
  { userInputValue := "Why is the sky blue?", voiceChoice := "Voice",
    characterSelectorValue := "cat", customCharacterValue := "",
    aiInitialized := true, textResponse := some songC1,
    imageOutcome := fun p => if p = "a dog" then none else some "img",
    nowId := "3", dbInit := true, backendOk := true }

/-- Three concrete Shorts with increasing timestamp ids, used to exercise
the history invariant. -/
def tikA : TikTok :=
  { id := "101", slides := [{lyrics := "a", imageSrc := "i"}],
    character := "cat", prompt := "p1", instrumentalId := some "beat-upbeat",
    voiceName := some "Voice", element := none }

/-- Second concrete Short (its save will fail at the backend). -/
def tikB : TikTok :=
  { id := "205", slides := [{lyrics := "b", imageSrc := "j"}],
    character := "dog", prompt := "p2", instrumentalId := some "beat-ballad",
    voiceName := some "Voice", element := none }

/-- Third concrete Short. -/
def tikC : TikTok :=
  { id := "310", slides := [{lyrics := "c", imageSrc := "k"}],
    character := "fox", prompt := "p3", instrumentalId := some "beat-epic",
    voiceName := some "Voice", element := none }

/-- A concrete operation sequence: a successful save, a save that fails at
the backend (and is rolled back), and another successful save. -/
def opsC7 : List Op :=
  [Op.save true true tikA, Op.save true false tikB, Op.save true true tikC]

-- --- Theorems ---

/-- Claim C3: for every music_style string, track selection is a
deterministic, total, case-insensitive keyword match checked in the fixed
priority order upbeat-group, then ballad-group, then epic-group, the first
matching group winning and any unmatched style defaulting to track A
(`beat-upbeat`): the source function agrees with the spec's ordered
group-match formulation on every input. -/
theorem selectBeat_matches_spec_priority (style : String) :
    selectBeatForStyle style = specSelectBeatForStyle style := by
  simp only [selectBeatForStyle, specSelectBeatForStyle, upbeatKeywords,
    balladKeywords, epicKeywords, List.any_cons, List.any_nil,
    Bool.or_false, Bool.or_assoc]

/-- The narration loop starting at index `i` speaks exactly the
non-blank lyrics of the slides from `i` onward, in order. -/
lemma speakAndAdvance_eq_filter (slides : List SlideData) :
    ∀ n i, slides.length - i ≤ n →
      speakAndAdvance slides i =
        ((slides.drop i).map (fun sl => sl.lyrics)).filter
          (fun l => decide ¬(trimStr l = "")) := by
  intro n
  induction n with
  | zero =>
      intro i h
      have hge : ¬ i < slides.length := by omega
      have hd : slides.drop i = [] := List.drop_eq_nil_of_le (by omega)
      rw [speakAndAdvance]
      simp [hge, hd]
  | succ n ih =>
      intro i h
      rw [speakAndAdvance]
      by_cases hlt : i < slides.length
      · rw [List.drop_eq_getElem_cons hlt]
        simp only [hlt, dif_pos, List.map_cons, List.filter_cons,
          List.get_eq_getElem]
        by_cases hblank : trimStr slides[i].lyrics = ""
        · simp [hblank, ih (i + 1) (by omega)]
        · simp [hblank, ih (i + 1) (by omega)]
      · have hd : slides.drop i = [] := List.drop_eq_nil_of_le (by omega)
        simp [hlt, hd]

/-- Claim C6: during sequential playback, every slide whose lyrics are empty
or whitespace-only is skipped without invoking the narration engine and the
loop advances immediately to the next slide index, while non-empty slides
are spoken in order: the utterances handed to the engine from index 0 are
exactly the lyrics whose trim is non-empty, in slide order. -/
theorem playback_skips_blank_lyrics (slides : List SlideData) :
    speakAndAdvance slides 0 =
      (slides.map (fun sl => sl.lyrics)).filter
        (fun l => decide ¬(trimStr l = "")) := by
  simpa using speakAndAdvance_eq_filter slides slides.length 0 (by omega)

/-- Claim C8: for every Short passed to the persistence put operation, the
stored representation equals the Short with the transient `element` handle
removed and all other fields unchanged, and the operation rejects with an
error when the store is not initialized or the backend write fails. -/
theorem put_excludes_element_and_rejects (dbInit backendOk : Bool)
    (store : List TikTok) (t : TikTok) :
    (dbInit = true → backendOk = true →
      saveTikTokToDB dbInit backendOk store t =
        Except.ok (putStore store (savableTikTok t)) ∧
      (savableTikTok t).id = t.id ∧
      (savableTikTok t).slides = t.slides ∧
      (savableTikTok t).character = t.character ∧
      (savableTikTok t).prompt = t.prompt ∧
      (savableTikTok t).instrumentalId = t.instrumentalId ∧
      (savableTikTok t).voiceName = t.voiceName ∧
      (savableTikTok t).element = none) ∧
    ((dbInit = false ∨ backendOk = false) →
      ∃ e, saveTikTokToDB dbInit backendOk store t = Except.error e) := by
  constructor
  · intro hd hb
    simp [saveTikTokToDB, savableTikTok, hd, hb]
  · intro h
    rcases h with h | h <;> subst h
    · exact ⟨_, rfl⟩
    · cases dbInit <;> exact ⟨_, rfl⟩

/-- Witness for C8 at a concrete Short and both failure modes. -/
theorem put_excludes_element_and_rejects_witness :
    (true = true → true = true →
      saveTikTokToDB true true [] ⟨"7", [⟨"la", "img"⟩], "cat", "why?",
          some "beat-upbeat", some "Voice", some "7"⟩ =
        Except.ok (putStore [] (savableTikTok ⟨"7", [⟨"la", "img"⟩], "cat",
          "why?", some "beat-upbeat", some "Voice", some "7"⟩)) ∧
      (savableTikTok ⟨"7", [⟨"la", "img"⟩], "cat", "why?",
          some "beat-upbeat", some "Voice", some "7"⟩).id = "7" ∧
      (savableTikTok ⟨"7", [⟨"la", "img"⟩], "cat", "why?",
          some "beat-upbeat", some "Voice", some "7"⟩).slides = [⟨"la", "img"⟩] ∧
      (savableTikTok ⟨"7", [⟨"la", "img"⟩], "cat", "why?",
          some "beat-upbeat", some "Voice", some "7"⟩).character = "cat" ∧
      (savableTikTok ⟨"7", [⟨"la", "img"⟩], "cat", "why?",
          some "beat-upbeat", some "Voice", some "7"⟩).prompt = "why?" ∧
      (savableTikTok ⟨"7", [⟨"la", "img"⟩], "cat", "why?",
          some "beat-upbeat", some "Voice", some "7"⟩).instrumentalId = some "beat-upbeat" ∧
      (savableTikTok ⟨"7", [⟨"la", "img"⟩], "cat", "why?",
          some "beat-upbeat", some "Voice", some "7"⟩).voiceName = some "Voice" ∧
      (savableTikTok ⟨"7", [⟨"la", "img"⟩], "cat", "why?",
          some "beat-upbeat", some "Voice", some "7"⟩).element = none) ∧
    ((true = false ∨ false = false) →
      ∃ e, saveTikTokToDB true false [] ⟨"7", [⟨"la", "img"⟩], "cat", "why?",
          some "beat-upbeat", some "Voice", some "7"⟩ = Except.error e) := by
  constructor
  · intro h1 h2
    exact (put_excludes_element_and_rejects true true [] _).1 h1 h2
  · intro h
    exact (put_excludes_element_and_rejects true false [] _).2 (Or.inr rfl)

/-- Claim C2: for every Short whose save to the persistence layer fails, the
in-memory newest-first list after the failed save attempt equals the list
exactly as it was before the attempt (the speculative head insertion is
rolled back, leaving no orphan entry), the persisted store, feed and gallery
are untouched, and the user is notified by an error popup. -/
theorem save_failure_rolls_back (dbInit backendOk : Bool) (t : TikTok)
    (s : AppState) (hfail : dbInit = false ∨ backendOk = false) :
    (saveAndRenderNewTikTok dbInit backendOk t s).1.savedTikToks =
      s.savedTikToks ∧
    (saveAndRenderNewTikTok dbInit backendOk t s).1.store = s.store ∧
    (saveAndRenderNewTikTok dbInit backendOk t s).1.feed = s.feed ∧
    (saveAndRenderNewTikTok dbInit backendOk t s).1.gallery = s.gallery ∧
    ∃ m, Effect.errorPopup m ∈ (saveAndRenderNewTikTok dbInit backendOk t s).2 := by
  rcases hfail with h | h <;> subst h
  · simp [saveAndRenderNewTikTok, saveTikTokToDB]
  · cases dbInit <;> simp [saveAndRenderNewTikTok, saveTikTokToDB]

/-- Witness for C2: a failed backend write on a one-element list rolls the
list back and pops an error. -/
theorem save_failure_rolls_back_witness :
    (true = false ∨ false = false) ∧
    ((saveAndRenderNewTikTok true false ⟨"9", [⟨"x", "i"⟩], "cat", "q", none,
        none, none⟩
      { isGenerating := false,
        savedTikToks := [⟨"5", [⟨"y", "j"⟩], "dog", "p", none, none, none⟩],
        store := [⟨"5", [⟨"y", "j"⟩], "dog", "p", none, none, none⟩],
        feed := ["5"], gallery := ["5"] }).1.savedTikToks =
      [⟨"5", [⟨"y", "j"⟩], "dog", "p", none, none, none⟩] ∧
    (saveAndRenderNewTikTok true false ⟨"9", [⟨"x", "i"⟩], "cat", "q", none,
        none, none⟩
      { isGenerating := false,
        savedTikToks := [⟨"5", [⟨"y", "j"⟩], "dog", "p", none, none, none⟩],
        store := [⟨"5", [⟨"y", "j"⟩], "dog", "p", none, none, none⟩],
        feed := ["5"], gallery := ["5"] }).1.store =
      [⟨"5", [⟨"y", "j"⟩], "dog", "p", none, none, none⟩] ∧
    (saveAndRenderNewTikTok true false ⟨"9", [⟨"x", "i"⟩], "cat", "q", none,
        none, none⟩
      { isGenerating := false,
        savedTikToks := [⟨"5", [⟨"y", "j"⟩], "dog", "p", none, none, none⟩],
        store := [⟨"5", [⟨"y", "j"⟩], "dog", "p", none, none, none⟩],
        feed := ["5"], gallery := ["5"] }).1.feed = ["5"] ∧
    (saveAndRenderNewTikTok true false ⟨"9", [⟨"x", "i"⟩], "cat", "q", none,
        none, none⟩
      { isGenerating := false,
        savedTikToks := [⟨"5", [⟨"y", "j"⟩], "dog", "p", none, none, none⟩],
        store := [⟨"5", [⟨"y", "j"⟩], "dog", "p", none, none, none⟩],
        feed := ["5"], gallery := ["5"] }).1.gallery = ["5"] ∧
    ∃ m, Effect.errorPopup m ∈
      (saveAndRenderNewTikTok true false ⟨"9", [⟨"x", "i"⟩], "cat", "q", none,
        none, none⟩
      { isGenerating := false,
        savedTikToks := [⟨"5", [⟨"y", "j"⟩], "dog", "p", none, none, none⟩],
        store := [⟨"5", [⟨"y", "j"⟩], "dog", "p", none, none, none⟩],
        feed := ["5"], gallery := ["5"] }).2) :=
  ⟨Or.inr rfl, save_failure_rolls_back true false _ _ (Or.inr rfl)⟩

/-- Claim C10: for every invocation of `generate` whose user input is empty
or whitespace-only after trimming, the invocation returns before any
observable effect: the state (busy flag, in-memory list, store, feed,
gallery) is unchanged and no effect at all (no playback stop, no popup, no
request) is produced. -/
theorem empty_input_no_effect (env : GenEnv) (s : AppState)
    (h : trimStr env.userInputValue = "") :
    generate env s = (s, []) := by
  simp [generate, h]

/-- Witness for C10 at a whitespace-only input. -/
theorem empty_input_no_effect_witness :
    trimStr "  \n " = "" ∧
    generate
      { userInputValue := "  \n ", voiceChoice := "Voice",
        characterSelectorValue := "cat", customCharacterValue := "",
        aiInitialized := true,
        textResponse := some ⟨[⟨"la", "a cat"⟩], "upbeat pop"⟩,
        imageOutcome := fun _ => some "img", nowId := "3",
        dbInit := true, backendOk := true }
      initialState =
    (initialState, []) :=
  ⟨rfl, empty_input_no_effect _ _ rfl⟩

/-- Claim C9: at most one generation is in flight — an invocation of
`generate` while the busy flag is set returns immediately with no effect and
no state change; and the flag is cleared on every exit path of a completed
generation (every invocation that starts with the flag clear ends with the
flag clear). -/
theorem busy_flag_serializes_generation (env : GenEnv) (s : AppState) :
    (s.isGenerating = true → generate env s = (s, [])) ∧
    (s.isGenerating = false → (generate env s).1.isGenerating = false) := by
  constructor
  · intro h
    simp [generate, h]
  · intro h
    simp only [generate]
    repeat' split
    all_goals first | exact h | rfl

/-- Witness for C9: with the busy flag set, a concrete invocation with a
non-empty input returns immediately with no state change and no effects. -/
theorem busy_flag_serializes_generation_witness :
    (AppState.mk true [] [] [] []).isGenerating = true ∧
    generate
      { userInputValue := "Why is the sky blue?", voiceChoice := "Voice",
        characterSelectorValue := "cat", customCharacterValue := "",
        aiInitialized := true,
        textResponse := some ⟨[⟨"la", "a cat"⟩], "upbeat pop"⟩,
        imageOutcome := fun _ => some "img", nowId := "3",
        dbInit := true, backendOk := true }
      (AppState.mk true [] [] [] []) =
    (AppState.mk true [] [] [] [], []) :=
  ⟨rfl,
   (busy_flag_serializes_generation _ (AppState.mk true [] [] [] [])).1 rfl⟩

/-- Claim C5: song generation fails with the generation-failure path and no
Short is created whenever the text-model response is absent, is not
parseable as the expected JSON structure, or yields a slides list of length
zero: under the preconditions that let the flow reach the song request
(non-blank input, idle flag, initialized client, non-blank narrator), a
`none` or zero-slide parse leaves the in-memory list, store and feed
unchanged, clears the busy flag, and surfaces an error popup. -/
theorem generation_error_on_bad_song (env : GenEnv) (s : AppState)
    (hbusy : s.isGenerating = false)
    (hmsg : trimStr env.userInputValue ≠ "")
    (hai : env.aiInitialized = true)
    (hchar : (if env.characterSelectorValue = "custom"
              then trimStr env.customCharacterValue
              else env.characterSelectorValue) ≠ "")
    (hbad : env.textResponse = none ∨
            ∃ sd, env.textResponse = some sd ∧ sd.slides = []) :
    (generate env s).1.savedTikToks = s.savedTikToks ∧
    (generate env s).1.store = s.store ∧
    (generate env s).1.feed = s.feed ∧
    (generate env s).1.isGenerating = false ∧
    ∃ m, Effect.errorPopup m ∈ (generate env s).2 := by
  rcases hbad with hnone | ⟨sd, hsome, hnil⟩
  · simp [generate, hbusy, hmsg, hai, hchar, hnone]
  · simp [generate, hbusy, hmsg, hai, hchar, hsome, hnil]

/-- Witness for C5 at an unparseable (absent) text-model response. -/
theorem generation_error_on_bad_song_witness :
    (initialState.isGenerating = false ∧
     trimStr "Why is the sky blue?" ≠ "" ∧
     true = true ∧
     (if ("cat" : String) = "custom" then trimStr "" else "cat") ≠ "" ∧
     ((none : Option SongStructure) = none ∨
      ∃ sd, (none : Option SongStructure) = some sd ∧ sd.slides = [])) ∧
    ((generate
        { userInputValue := "Why is the sky blue?", voiceChoice := "Voice",
          characterSelectorValue := "cat", customCharacterValue := "",
          aiInitialized := true, textResponse := none,
          imageOutcome := fun _ => some "img", nowId := "3",
          dbInit := true, backendOk := true }
        initialState).1.savedTikToks = initialState.savedTikToks ∧
     (generate
        { userInputValue := "Why is the sky blue?", voiceChoice := "Voice",
          characterSelectorValue := "cat", customCharacterValue := "",
          aiInitialized := true, textResponse := none,
          imageOutcome := fun _ => some "img", nowId := "3",
          dbInit := true, backendOk := true }
        initialState).1.store = initialState.store ∧
     (generate
        { userInputValue := "Why is the sky blue?", voiceChoice := "Voice",
          characterSelectorValue := "cat", customCharacterValue := "",
          aiInitialized := true, textResponse := none,
          imageOutcome := fun _ => some "img", nowId := "3",
          dbInit := true, backendOk := true }
        initialState).1.feed = initialState.feed ∧
     (generate
        { userInputValue := "Why is the sky blue?", voiceChoice := "Voice",
          characterSelectorValue := "cat", customCharacterValue := "",
          aiInitialized := true, textResponse := none,
          imageOutcome := fun _ => some "img", nowId := "3",
          dbInit := true, backendOk := true }
        initialState).1.isGenerating = false ∧
     ∃ m, Effect.errorPopup m ∈
       (generate
        { userInputValue := "Why is the sky blue?", voiceChoice := "Voice",
          characterSelectorValue := "cat", customCharacterValue := "",
          aiInitialized := true, textResponse := none,
          imageOutcome := fun _ => some "img", nowId := "3",
          dbInit := true, backendOk := true }
        initialState).2) :=
  ⟨⟨rfl, by decide, rfl, by decide, Or.inl rfl⟩,
   generation_error_on_bad_song _ _ rfl (by decide) rfl (by decide)
     (Or.inl rfl)⟩

/-- `Promise.all` rejects as soon as any one of the joined image requests
rejects. -/
lemma promiseAll_eq_none_of_mem (outcome : String → Option String)
    (l : List String) (p : String) (hp : p ∈ l)
    (hnone : outcome p = none) : promiseAll outcome l = none := by
  induction l with
  | nil => cases hp
  | cons q rest ih =>
      rcases List.mem_cons.mp hp with rfl | hp'
      · simp [promiseAll, hnone]
      · rw [promiseAll, ih hp']
        cases outcome q <;> rfl

/-- Reading the image requests back off a trace of image requests returns
exactly the prompts, in order. -/
lemma filterMap_imageRequests (l : List String) :
    (l.map Effect.imageRequest).filterMap imagePromptOfEffect = l := by
  induction l with
  | nil => rfl
  | cons p rest ih => simp [imagePromptOfEffect, ih]

/-- The save step issues no image requests of its own. -/
lemma saveAndRender_no_imageRequests (dbInit backendOk : Bool) (t : TikTok)
    (s : AppState) :
    ((saveAndRenderNewTikTok dbInit backendOk t s).2).filterMap
      imagePromptOfEffect = [] := by
  unfold saveAndRenderNewTikTok
  split <;> simp [imagePromptOfEffect]

/-- A fulfilled `Promise.all` returns one image per request. -/
lemma promiseAll_length (outcome : String → Option String) :
    ∀ (l : List String) (imgs : List String),
      promiseAll outcome l = some imgs → imgs.length = l.length := by
  intro l
  induction l with
  | nil => intro imgs h; simp [promiseAll] at h; simp [h]
  | cons q rest ih =>
      intro imgs h
      rw [promiseAll] at h
      cases hq : outcome q with
      | none => rw [hq] at h; cases h
      | some img =>
          rw [hq] at h
          cases hr : promiseAll outcome rest with
          | none => rw [hr] at h; cases h
          | some imgs' =>
              rw [hr] at h
              cases h
              simp [ih imgs' hr]

/-- Variant of `filterMap_imageRequests` for a composed prompt
projection. -/
lemma filterMap_imageRequests_comp (f : SongSlide → String)
    (l : List SongSlide) :
    l.filterMap (imagePromptOfEffect ∘ Effect.imageRequest ∘ f) =
      l.map f := by
  induction l with
  | nil => rfl
  | cons p rest ih => simp [imagePromptOfEffect, ih]

/-- Claim C1: for every generation attempt whose song structure has N
slides, exactly N image-generation requests are issued — one per
image_prompt, in order, all joined by a single `Promise.all` — and if any
one of them rejects, the generation flow returns without persisting any
Short and without adding any feed item: the in-memory list, the store, the
feed and the gallery are exactly as before. -/
theorem generate_images_all_or_nothing (env : GenEnv) (s : AppState)
    (songData : SongStructure)
    (hbusy : s.isGenerating = false)
    (hmsg : trimStr env.userInputValue ≠ "")
    (hai : env.aiInitialized = true)
    (hchar : (if env.characterSelectorValue = "custom"
              then trimStr env.customCharacterValue
              else env.characterSelectorValue) ≠ "")
    (hresp : env.textResponse = some songData)
    (hslides : songData.slides.length ≠ 0) :
    ((generate env s).2.filterMap imagePromptOfEffect =
      songData.slides.map (fun sl => sl.image_prompt)) ∧
    ((∃ p ∈ songData.slides.map (fun sl => sl.image_prompt),
        env.imageOutcome p = none) →
      (generate env s).1.savedTikToks = s.savedTikToks ∧
      (generate env s).1.store = s.store ∧
      (generate env s).1.feed = s.feed ∧
      (generate env s).1.gallery = s.gallery) := by
  constructor
  · rcases hall : promiseAll env.imageOutcome
        (songData.slides.map (fun sl => sl.image_prompt)) with _ | images
    · simp [generate, hbusy, hmsg, hai, hchar, hresp, hslides, hall,
        imagePromptOfEffect, filterMap_imageRequests_comp]
    · have hlen := promiseAll_length env.imageOutcome _ _ hall
      have hpos : 0 < songData.slides.length := Nat.pos_of_ne_zero hslides
      simp [generate, hbusy, hmsg, hai, hchar, hresp, hslides, hall,
        imagePromptOfEffect, filterMap_imageRequests_comp,
        saveAndRender_no_imageRequests, hlen, hpos]
  · rintro ⟨p, hp, hnone⟩
    have hall : promiseAll env.imageOutcome
        (songData.slides.map (fun sl => sl.image_prompt)) = none :=
      promiseAll_eq_none_of_mem _ _ p hp hnone
    simp [generate, hbusy, hmsg, hai, hchar, hresp, hslides, hall]

/-- Witness for C1: in `envC1` both image requests are issued and the
rejection of the second aborts the attempt with no state change. -/
theorem generate_images_all_or_nothing_witness :
    (initialState.isGenerating = false ∧
     trimStr envC1.userInputValue ≠ "" ∧
     envC1.aiInitialized = true ∧
     (if envC1.characterSelectorValue = "custom"
      then trimStr envC1.customCharacterValue
      else envC1.characterSelectorValue) ≠ "" ∧
     envC1.textResponse = some songC1 ∧
     songC1.slides.length ≠ 0) ∧
    (((generate envC1 initialState).2.filterMap imagePromptOfEffect =
        songC1.slides.map (fun sl => sl.image_prompt)) ∧
     ((∃ p ∈ songC1.slides.map (fun sl => sl.image_prompt),
         envC1.imageOutcome p = none) →
       (generate envC1 initialState).1.savedTikToks =
         initialState.savedTikToks ∧
       (generate envC1 initialState).1.store = initialState.store ∧
       (generate envC1 initialState).1.feed = initialState.feed ∧
       (generate envC1 initialState).1.gallery = initialState.gallery)) :=
  ⟨⟨rfl, by decide, rfl, by decide, rfl, by decide⟩,
   generate_images_all_or_nothing envC1 initialState songC1 rfl (by decide)
     rfl (by decide) rfl (by decide)⟩

set_option maxRecDepth 100000 in
/-- Counterexample to C4 as stated: for the unmatched narrator "deadpool",
the generic instruction does not reference the literal, original-case name
as typed by the user — the name has been capitalized, and the lowercase
original no longer occurs anywhere in the instruction. -/
theorem generic_instruction_not_literal_name :
    getInstructionsForSong "deadpool" ≠
      baseInstructions ++ " " ++
        ("Incorporate " ++ "deadpool" ++
         "\x27s unique personality, skills, and famous concepts into the lyrics.") ∧
    strContainsSub (getInstructionsForSong "deadpool") "deadpool" = false := by
  constructor
  · decide
  · decide

/-- Claim C4 (amended): for every narrator input, any leading emoji is
stripped (and the remainder trimmed) before matching case-insensitively
against the curated-narrator table (spider-man, barbie, simba), and every
unmatched name falls through to the generic instruction template referencing
the stripped, trimmed name with its first character uppercased (the rest of
the name keeping its original case). -/
theorem instructions_strip_emoji_then_match (character : String) :
    (toLowerStr (trimStr (stripLeadingEmoji character)) = "spider-man" →
      getInstructionsForSong character = baseInstructions ++ " " ++
        "Use concepts like web-slinging, spider-sense, and great responsibility in the lyrics.") ∧
    (toLowerStr (trimStr (stripLeadingEmoji character)) = "barbie" →
      getInstructionsForSong character = baseInstructions ++ " " ++
        "Use themes of fashion, friendship, and her many careers in the lyrics.") ∧
    (toLowerStr (trimStr (stripLeadingEmoji character)) = "simba" →
      getInstructionsForSong character = baseInstructions ++ " " ++
        "Use themes of the circle of life, the pride lands, and his jungle friends in the lyrics.") ∧
    (toLowerStr (trimStr (stripLeadingEmoji character)) ≠ "spider-man" →
     toLowerStr (trimStr (stripLeadingEmoji character)) ≠ "barbie" →
     toLowerStr (trimStr (stripLeadingEmoji character)) ≠ "simba" →
      getInstructionsForSong character = baseInstructions ++ " " ++
        ("Incorporate " ++
         charAtUpperConcat (trimStr (stripLeadingEmoji character)) ++
         "\x27s unique personality, skills, and famous concepts into the lyrics.")) := by
  refine ⟨?_, ?_, ?_, ?_⟩
  · intro h
    simp [getInstructionsForSong, h]
  · intro h
    simp [getInstructionsForSong, h]
  · intro h
    simp [getInstructionsForSong, h]
  · intro h1 h2 h3
    simp [getInstructionsForSong, h1, h2, h3]

/-- Witness for C4 (amended): a leading emoji is stripped off the unmatched
narrator "🦖 rex" and the generic instruction references "Rex". -/
theorem instructions_strip_emoji_then_match_witness :
    toLowerStr (trimStr (stripLeadingEmoji "🦖 rex")) ≠ "spider-man" ∧
    toLowerStr (trimStr (stripLeadingEmoji "🦖 rex")) ≠ "barbie" ∧
    toLowerStr (trimStr (stripLeadingEmoji "🦖 rex")) ≠ "simba" ∧
    getInstructionsForSong "🦖 rex" = baseInstructions ++ " " ++
      ("Incorporate " ++
       charAtUpperConcat (trimStr (stripLeadingEmoji "🦖 rex")) ++
       "\x27s unique personality, skills, and famous concepts into the lyrics.") :=
  ⟨by decide, by decide, by decide,
   (instructions_strip_emoji_then_match "🦖 rex").2.2.2 (by decide)
     (by decide) (by decide)⟩

/-- Attaching feed handles does not change the numeric keys. -/
lemma tikTokKey_set_element (l : List TikTok) :
    (l.map (fun t => {t with element := some t.id})).map tikTokKey =
      l.map tikTokKey := by
  simp only [List.map_map]
  rfl

/-- Upserting a record whose id is fresh appends it. -/
lemma putStore_fresh (store : List TikTok) (t : TikTok)
    (h : ∀ u ∈ store, u.id ≠ t.id) : putStore store t = store ++ [t] := by
  unfold putStore
  rw [if_neg]
  simp only [List.any_eq_true, decide_eq_true_eq, not_exists]
  rintro u ⟨hu, he⟩
  exact h u hu he

/-- A save with a fresh, strictly larger key preserves the history
invariant, whether the write succeeds or is rolled back. -/
lemma inv_save (d b : Bool) (t : TikTok) (s : AppState)
    (h : HistoryInv s)
    (hfresh : ∀ u ∈ s.store, tikTokKey u < tikTokKey t) :
    HistoryInv ((saveAndRenderNewTikTok d b t s).1) := by
  obtain ⟨hperm, hsort, hgal⟩ := h
  rcases Bool.eq_false_or_eq_true d with hd | hd
  case inr =>
    subst hd
    simpa [saveAndRenderNewTikTok, saveTikTokToDB, HistoryInv] using
      ⟨hperm, hsort, hgal⟩
  rcases Bool.eq_false_or_eq_true b with hb | hb
  case inr =>
    subst hd hb
    simpa [saveAndRenderNewTikTok, saveTikTokToDB, HistoryInv] using
      ⟨hperm, hsort, hgal⟩
  · subst hd hb
    have hid : ∀ u ∈ s.store, u.id ≠ (savableTikTok t).id := by
      intro u hu he
      have hlt := hfresh u hu
      have heq : tikTokKey u = tikTokKey t := by
        simp only [savableTikTok] at he
        simp [tikTokKey, he]
      omega
    have hput := putStore_fresh s.store (savableTikTok t) hid
    have hsave : saveTikTokToDB true true s.store t =
        Except.ok (s.store ++ [savableTikTok t]) := by
      simp [saveTikTokToDB, hput]
    unfold saveAndRenderNewTikTok
    rw [hsave]
    simp only [HistoryInv, addTikTokToFeed, renderHistoryGallery,
      List.map_cons, List.map_append]
    have h1 : tikTokKey {t with element := some t.id} = tikTokKey t := rfl
    have h2 : tikTokKey (savableTikTok t) = tikTokKey t := rfl
    refine ⟨?_, ?_, trivial⟩
    · rw [h1, h2]
      exact (hperm.cons _).trans (List.perm_append_singleton _ _).symm
    · rw [h1]
      refine List.Pairwise.cons ?_ hsort
      intro k hk
      obtain ⟨u, hu, rfl⟩ := List.mem_map.mp (hperm.subset hk)
      exact hfresh u hu

/-- The history sort is sorted weakly descending in numeric key. -/
lemma sortNewestFirst_sorted (l : List TikTok) :
    (sortNewestFirst l).Pairwise
      (fun a b => tikTokKey b ≤ tikTokKey a) := by
  have H : (sortNewestFirst l).Pairwise
      (fun a b => (decide (tikTokKey b ≤ tikTokKey a)) = true) := by
    unfold sortNewestFirst
    apply List.sorted_mergeSort
    · intro a b c hab hbc
      simp only [decide_eq_true_eq] at hab hbc ⊢
      omega
    · intro a b
      simpa using Nat.le_total (tikTokKey b) (tikTokKey a)
  exact H.imp (fun hab => by simpa using hab)

/-- Unfolding of a successful, non-empty load. -/
lemma loadHistoryFromDB_pos (s : AppState)
    (hlen : (sortNewestFirst s.store).length > 0) :
    loadHistoryFromDB true true s =
      {s with
        savedTikToks := (sortNewestFirst s.store).map
          (fun t => {t with element := some t.id}),
        feed := ((sortNewestFirst s.store).map
          (fun t => {t with element := some t.id})).map (fun t => t.id) ++
          s.feed,
        gallery := renderHistoryGallery ((sortNewestFirst s.store).map
          (fun t => {t with element := some t.id}))} := by
  simp [loadHistoryFromDB, hlen]

/-- A load round-trip preserves the history invariant. -/
lemma inv_load (d b : Bool) (s : AppState) (h : HistoryInv s) :
    HistoryInv (loadHistoryFromDB d b s) := by
  obtain ⟨hperm, hsort, hgal⟩ := h
  rcases Bool.eq_false_or_eq_true d with hd | hd
  case inr =>
    subst hd
    simpa [loadHistoryFromDB, HistoryInv] using ⟨hperm, hsort, hgal⟩
  rcases Bool.eq_false_or_eq_true b with hb | hb
  case inr =>
    subst hd hb
    simpa [loadHistoryFromDB, HistoryInv] using ⟨hperm, hsort, hgal⟩
  subst hd hb
  have hperm2 : (sortNewestFirst s.store).Perm s.store :=
    List.mergeSort_perm s.store _
  have hpermK : ((sortNewestFirst s.store).map tikTokKey).Perm
      (s.store.map tikTokKey) := hperm2.map _
  have hnodupMem : (s.savedTikToks.map tikTokKey).Nodup :=
    hsort.imp (fun hab => ne_of_gt hab)
  have hnodupLoaded : ((sortNewestFirst s.store).map tikTokKey).Nodup :=
    hpermK.nodup_iff.mpr (hperm.nodup_iff.mp hnodupMem)
  have hstrict : (sortNewestFirst s.store).Pairwise
      (fun a b => tikTokKey b < tikTokKey a) := by
    have hne : (sortNewestFirst s.store).Pairwise
        (fun a b => tikTokKey a ≠ tikTokKey b) :=
      List.pairwise_map.mp hnodupLoaded
    exact ((sortNewestFirst_sorted s.store).and hne).imp
      (fun hab => lt_of_le_of_ne hab.1 (fun he => hab.2 he.symm))
  by_cases hlen : (sortNewestFirst s.store).length > 0
  · rw [loadHistoryFromDB_pos s hlen]
    refine ⟨?_, ?_, ?_⟩
    · rw [tikTokKey_set_element]
      exact hpermK
    · rw [tikTokKey_set_element]
      exact List.pairwise_map.mpr hstrict
    · rfl
  · have hnil : sortNewestFirst s.store = [] :=
      List.length_eq_zero.mp (by omega)
    have hstorenil : s.store = [] :=
      List.perm_nil.mp (hnil ▸ hperm2).symm
    have hmemnil : s.savedTikToks = [] := by
      have hp : (s.savedTikToks.map tikTokKey).Perm [] := by
        simpa [hstorenil] using hperm
      simpa using List.map_eq_nil_iff.mp (List.perm_nil.mp hp)
    simp [loadHistoryFromDB, sortNewestFirst, hnil, HistoryInv, hgal, hmemnil,
    hstorenil]

/-- Running any sequence of fresh-id loads and saves preserves the history
invariant. -/
lemma historyInv_runOps : ∀ (ops : List Op) (s : AppState),
    HistoryInv s → freshSaves s ops = true → HistoryInv (runOps s ops) := by
  intro ops
  induction ops with
  | nil => intro s h _; exact h
  | cons op rest ih =>
      intro s h hf
      rw [freshSaves.eq_def, Bool.and_eq_true] at hf
      obtain ⟨h1, h2⟩ := hf
      refine ih (applyOp s op) ?_ h2
      cases op with
      | load d b => exact inv_load d b s h
      | save d b t =>
          refine inv_save d b t s h ?_
          intro u hu
          have := List.all_eq_true.mp h1 u hu
          simpa using this

/-- Claim C7: after any sequence of load-from-store and save operations
(each save carrying a fresh, larger timestamp id, as `Date.now()` yields
between distinct generations), the history gallery lists exactly the shorts
in the in-memory list in order, that list is strictly descending in numeric
id (newest first), and the gallery count equals the persisted set size. -/
theorem history_gallery_matches_memory (ops : List Op)
    (h : freshSaves initialState ops = true) :
    (runOps initialState ops).gallery =
      (runOps initialState ops).savedTikToks.map (fun t => t.id) ∧
    ((runOps initialState ops).savedTikToks.map tikTokKey).Pairwise
      (fun a b => b < a) ∧
    (runOps initialState ops).gallery.length =
      (runOps initialState ops).store.length := by
  have hinv := historyInv_runOps ops initialState
    ⟨List.Perm.nil, List.Pairwise.nil, rfl⟩ h
  obtain ⟨h1, h2, h3⟩ := hinv
  refine ⟨h3, h2, ?_⟩
  rw [h3]
  have := h1.length_eq
  simpa using this

/-- Witness for C7 at the concrete sequence `opsC7`. -/
theorem history_gallery_matches_memory_witness :
    freshSaves initialState opsC7 = true ∧
    ((runOps initialState opsC7).gallery =
      (runOps initialState opsC7).savedTikToks.map (fun t => t.id) ∧
    ((runOps initialState opsC7).savedTikToks.map tikTokKey).Pairwise
      (fun a b => b < a) ∧
    (runOps initialState opsC7).gallery.length =
      (runOps initialState opsC7).store.length) :=
  ⟨by decide, history_gallery_matches_memory opsC7 (by decide)⟩
